import Mathlib

/-!
Verification development for the philips-hue-adapter repository
(src/philips-hue-adapter.js), a gateway adapter for Philips Hue light
bulbs.  The source is shallowly embedded: pure computations become Lean
functions over `Nat`/`ℚ`, the callback-chained pairing loop becomes an
explicit step relation over an environment-chosen event list, and the
promise chains become functions that return the final state together
with the list of observable actions (HTTP requests, storage operations)
they perform, in order.
-/

namespace PhilipsHue

/-! ## ColorCodec

The adapter converts between the bridge integer encoding
(hue 0..65535, sat 0..255, bri 0..255) and a hex RGB color string.
The conversions go through the external `color` npm library, which is
not part of this repository; its HSV↔RGB conversions are modelled from
the spec (standard sector formula for HSV→RGB with 8-bit rounding for
the hex string; max/min chroma formula for RGB→HSV).  The scale factors
and the `Math.floor` truncations are taken directly from the source
(lines 65-69 and 86-103 of src/philips-hue-adapter.js).
-/

/-- Rounding of a rational to an integer the way JavaScript Math.round
does it: floor of the value plus one half. -/
def roundQ (q : ℚ) : ℤ :=
  ⌊q + 1/2⌋

/-- A 6-hex-digit color string, represented by its three 8-bit channels
(the string `#RRGGBB` is determined by and determines this triple). -/
structure HexColor where
  r : Nat
  g : Nat
  b : Nat
deriving DecidableEq, Repr

/-- Modelled from the spec: the external color library's HSV→RGB
conversion (`Color({h, s, v}).hex()` internals, absent from src/).
Hue is in degrees 0..360, s and v are percentages 0..100; the result
channels are real-valued in 0..255, standard sector formula. -/
def hsv2rgb (h s v : ℚ) : ℚ × ℚ × ℚ :=
  let h6 : ℚ := h / 60
  let s1 : ℚ := s / 100
  let v1 : ℚ := v / 100
  let hi : Nat := (Int.toNat ⌊h6⌋) % 6
  let f : ℚ := h6 - ⌊h6⌋
  let vv : ℚ := 255 * v1
  let p : ℚ := 255 * (v1 * (1 - s1))
  let q : ℚ := 255 * (v1 * (1 - s1 * f))
  let t : ℚ := 255 * (v1 * (1 - s1 * (1 - f)))
  if hi = 0 then (vv, t, p)
  else if hi = 1 then (q, vv, p)
  else if hi = 2 then (p, vv, t)
  else if hi = 3 then (p, q, vv)
  else if hi = 4 then (t, p, vv)
  else (vv, p, q)

/-- Modelled from the spec: the hex string produced by the color
library rounds each real-valued channel to an 8-bit integer. -/
def rgbQuantize (c : ℚ × ℚ × ℚ) : HexColor :=
  ⟨(roundQ c.1).toNat, (roundQ c.2.1).toNat, (roundQ c.2.2).toNat⟩

/-- Source lines 65-69: the hex color computed by the device
constructor from the bridge state, `Color({h: hue/65535*360,
s: sat/255*100, v: bri/255*100}).hex()`. -/
def bridgeToHex (hue sat bri : Nat) : HexColor :=
  rgbQuantize (hsv2rgb ((hue : ℚ) / 65535 * 360) ((sat : ℚ) / 255 * 100)
    ((bri : ℚ) / 255 * 100))

/-- Modelled from the spec: the color library's RGB→HSV conversion
(`Color(hex).hue()/.saturationv()/.value()` internals, absent from
src/).  Returns hue in degrees, saturation and value as percentages,
by the standard max/min chroma formula. -/
def rgb2hsv (c : HexColor) : ℚ × ℚ × ℚ :=
  let M : Nat := max c.r (max c.g c.b)
  let m : Nat := min c.r (min c.g c.b)
  let d : Nat := M - m
  let v : ℚ := (M : ℚ) / 255 * 100
  let s : ℚ := if M = 0 then 0 else (d : ℚ) / (M : ℚ) * 100
  let h0 : ℚ :=
    if d = 0 then 0
    else if c.r = M then ((c.g : ℚ) - (c.b : ℚ)) / (d : ℚ)
    else if c.g = M then 2 + ((c.b : ℚ) - (c.r : ℚ)) / (d : ℚ)
    else 4 + ((c.r : ℚ) - (c.g : ℚ)) / (d : ℚ)
  let h1 : ℚ := min (h0 * 60) 360
  let h : ℚ := if h1 < 0 then h1 + 360 else h1
  (h, s, v)

/-- Source lines 86-103: decoding a stored hex color back into the
bridge triple, `Math.floor(color.hue() * 65535 / 360)`,
`Math.floor(color.saturationv() * 255 / 100)`,
`Math.floor(color.value() * 255 / 100)`. -/
def hexToBridge (c : HexColor) : Nat × Nat × Nat :=
  let hsv := rgb2hsv c
  ((Int.toNat ⌊hsv.1 * 65535 / 360⌋),
   (Int.toNat ⌊hsv.2.1 * 255 / 100⌋),
   (Int.toNat ⌊hsv.2.2 * 255 / 100⌋))

/-! ## Device model

`PhilipsHueDevice` (src 48-115) holds two properties with cached
values, `on` (boolean) and `color` (hex string).  `PhilipsHueProperty.setValue`
(src 36-42) updates the cached value, resolves, and then notifies the
device, which computes the payload pushed to the bridge
(`notifyPropertyChanged`, src 82-114) and hands it to
`PhilipsHueAdapter.sendProperties` (src 252-266).
-/

/-- The bridge light API object consumed by the device constructor:
`light.name` and `light.state.{on, hue, sat, bri}`. -/
structure LightInfo where
  name : String
  stateOn : Bool
  hue : Nat
  sat : Nat
  bri : Nat
deriving DecidableEq, Repr

/-- State of one `PhilipsHueDevice`: its id, the bridge-local light id,
the display name, and the cached values of its two properties. -/
structure DeviceState where
  devId : String
  lightId : String
  name : String
  onValue : Bool
  colorValue : HexColor
deriving DecidableEq, Repr

/-- Source lines 55-75: the `PhilipsHueDevice` constructor.  It stores
the light id and name, caches `light.state.on` into the `on` property
and the hex encoding of the bridge hue/sat/bri triple into the `color`
property. -/
def mkPhilipsHueDevice (devId lightId : String) (light : LightInfo) : DeviceState :=
  { devId := devId, lightId := lightId, name := light.name,
    onValue := light.stateOn,
    colorValue := bridgeToHex light.hue light.sat light.bri }

/-- A value that can be written to a property: the `on` property holds a
boolean, the `color` property holds a hex color string. -/
inductive PropVal where
  | boolVal (v : Bool)
  | colorVal (v : HexColor)
deriving DecidableEq, Repr

/-- Source line 38 (`this.setCachedValue(value)` inside `setValue`):
writing a property's cached value into the device. -/
def setCachedValue (d : DeviceState) (propertyName : String) (v : PropVal) : DeviceState :=
  if propertyName = "on" then
    match v with
    | .boolVal b => { d with onValue := b }
    | _ => d
  else if propertyName = "color" then
    match v with
    | .colorVal c => { d with colorValue := c }
    | _ => d
  else d

/-- The JSON payload pushed to the bridge: either `{on, hue, sat, bri}`
(the `on` case) or `{hue, sat, bri}` with the on/off field absent (the
`color` case). -/
inductive Payload where
  | onHSB (onV : Bool) (hue sat bri : Nat)
  | hsb (hue sat bri : Nat)
deriving DecidableEq, Repr

/-- Source lines 82-114, `notifyPropertyChanged`: from the name of the
changed property and the device's current cached values, the
`sendProperties` call made, as `(lightId, payload)`; `none` when the
switch falls to the default branch (warn, no bridge call). -/
def notifyPropertyChanged (d : DeviceState) (propertyName : String) :
    Option (String × Payload) :=
  if propertyName = "color" then
    let hsb := hexToBridge d.colorValue
    some (d.lightId, .hsb hsb.1 hsb.2.1 hsb.2.2)
  else if propertyName = "on" then
    let hsb := hexToBridge d.colorValue
    some (d.lightId, .onHSB d.onValue hsb.1 hsb.2.1 hsb.2.2)
  else
    none

/-- Outcome of the `PUT .../lights/{id}/state` push as the environment
chooses it: the request resolves and its body decodes, the body fails
to decode, or the transport itself fails. -/
inductive TransportResult where
  | okBody (body : String)
  | decodeFailure (err : String)
  | networkFailure (err : String)
deriving DecidableEq, Repr

/-- Source lines 255-262, the uncaught part of `sendProperties`:
`fetch(uri, ...).then(res => res.text())` — an `Except` that is an
error exactly on transport or decode failure. -/
def sendPropertiesRaw : TransportResult → Except String String
  | .okBody b => .ok b
  | .decodeFailure e => .error e
  | .networkFailure e => .error e

/-- Source lines 252-266, `sendProperties` as the caller sees it: the
trailing `.catch(e => console.error(e))` turns every failure into a
resolution (with no body), so the promise always resolves. -/
def sendProperties (r : TransportResult) : Except String (Option String) :=
  match sendPropertiesRaw r with
  | .ok b => .ok (some b)
  | .error _ => .ok none

/-- Source lines 36-42 composed with 82-114 and 252-266: `setValue`
writes the cached value, resolves, then notifies the device; when the
notification produces a payload it is pushed to the bridge against
transport outcome `r`.  Returns the device state afterwards, the
pushed `(lightId, payload)` if any, and the outcome of the push. -/
def setValue (d : DeviceState) (propertyName : String) (v : PropVal)
    (r : TransportResult) :
    DeviceState × Option (String × Payload) × Except String (Option String) :=
  let d' := setCachedValue d propertyName v
  match notifyPropertyChanged d' propertyName with
  | none => (d', none, .ok none)
  | some call => (d', some call, sendProperties r)

/-! ## Adapter model

`PhilipsHueAdapter` (src 122-267) owns the bridge id and IP, the
credential (`username`), the pairing flag and deadline, and the light
registry (`this.lights`).  The promise chain of `attemptPairing`
(src 164-185) is modelled as a function from the adapter state and an
environment (the bridge's and the storage's responses) to the adapter
state afterwards together with the chronological list of observable
actions the chain performs.
-/

/-- The persisted bridge-id → username mapping held under the single
storage key `PhilipsHueAdapter.knownBridgeUsernames`. -/
def Table : Type := String → Option String

/-- State of one `PhilipsHueAdapter` (src 123-131). -/
structure AdapterState where
  bridgeId : String
  bridgeIp : String
  username : Option String
  pairing : Bool
  pairingEnd : Nat
  lights : List (String × DeviceState)

/-- Observable actions of the pairing/discovery promise chains, in
chronological order. -/
inductive Action where
  | registration
  | setUsernameAct (u : String)
  | lightsRequest
  | storageInit
  | storageGet
  | storageSet
deriving DecidableEq, Repr

/-- Outcome of the `POST /api` registration request as the environment
chooses it (src 196-212): the reply array is empty, carries an error
object, carries a success object with the username, or the transport
fails. -/
inductive BridgeReply where
  | emptyReply
  | errorReply (e : String)
  | success (username : String)
  | networkFailure (e : String)
deriving DecidableEq, Repr

/-- Source lines 191-213, `pair()`: when a username is already known the
promise resolves with it immediately and no request is made; otherwise
a registration `POST /api` is issued and the reply is decoded, with the
empty array and the error object turned into rejections. -/
def pair (s : AdapterState) (reply : BridgeReply) :
    List Action × Except String String :=
  match s.username with
  | some u => ([], .ok u)
  | none =>
    ([.registration],
     match reply with
     | .emptyReply => .error "empty response from bridge"
     | .errorReply e => .error e
     | .success u => .ok u
     | .networkFailure e => .error e)

/-- Source lines 234-241, the body of the discovery loop for one bridge
light: a light id already present in `this.lights` is skipped
(`continue`); otherwise a new `PhilipsHueDevice` is constructed with
the composite id `philips-hue-<bridgeId>-<lightId>` and appended.  The
accumulator carries the registry and the list of created light ids. -/
def discAdd (bridgeId : String)
    (acc : List (String × DeviceState) × List String)
    (p : String × LightInfo) : List (String × DeviceState) × List String :=
  if (acc.1.lookup p.1).isSome then acc
  else (acc.1 ++ [(p.1,
          mkPhilipsHueDevice ("philips-hue-" ++ bridgeId ++ "-" ++ p.1) p.1 p.2)],
        acc.2 ++ [p.1])

/-- Source lines 224-243, `discoverLights()`: rejects without any
request when no username is known; otherwise issues the lights `GET`
and, per bridge light id not already in `this.lights`, constructs one
new `PhilipsHueDevice` (id `philips-hue-<bridgeId>-<lightId>`) and adds
it; ids already present are skipped (`continue`).  Returns the new
state, the actions, the created light ids, and the promise outcome
(`none` for `lightsReply` means the request or its decoding failed). -/
def discoverLights (s : AdapterState)
    (lightsReply : Option (List (String × LightInfo))) :
    AdapterState × List Action × List String × Except String Unit :=
  match s.username with
  | none => (s, [], [], .error "missing username")
  | some _ =>
    match lightsReply with
    | none => (s, [.lightsRequest], [], .error "lights request failed")
    | some ls =>
      let res := ls.foldl (discAdd s.bridgeId) (s.lights, [])
      ({ s with lights := res.1 }, [.lightsRequest], res.2, .ok ())

/-- Source lines 172-177: merge the newly acquired username into the
table read back from storage (`knownBridgeUsernames[this.bridgeId] =
this.username`), starting from the empty table when `getItem` returned
nothing (falsy). -/
def persistUsername (knownBridgeUsernames : Option Table)
    (bridgeId username : String) : Table :=
  let t : Table := match knownBridgeUsernames with
                   | none => fun _ => none
                   | some t => t
  fun b => if b = bridgeId then some username else t b

/-- Environment of one `attemptPairing` invocation: the bridge's reply
to the registration request, the lights listing reply, and the table
`storage.getItem` returns. -/
structure PairEnv where
  bridgeReply : BridgeReply
  lightsReply : Option (List (String × LightInfo))
  storedTable : Option Table

/-- Result of one `attemptPairing` invocation: the adapter state
afterwards, the chronological actions, whether the catch handler
scheduled a retry (src 180-183), and the table passed to
`storage.setItem` when the chain reached it. -/
structure AttemptResult where
  state : AdapterState
  actions : List Action
  retryScheduled : Bool
  storedWrite : Option Table

/-- Source lines 164-185, `attemptPairing()`: `pair()` then — on
success — `this.username = username`, `discoverLights()`, then
`storage.init()`, `storage.getItem`, merge, `storage.setItem`; any
rejection falls to the catch handler, which schedules a retry iff
`this.pairing && Date.now() < this.pairingEnd` (`now` is the time the
catch handler runs). -/
def attemptPairing (s : AdapterState) (env : PairEnv) (now : Nat) :
    AttemptResult :=
  let pr := pair s env.bridgeReply
  match pr.2 with
  | .error _ =>
      { state := s, actions := pr.1,
        retryScheduled := s.pairing && decide (now < s.pairingEnd),
        storedWrite := none }
  | .ok u =>
      let s₁ := { s with username := some u }
      let dr := discoverLights s₁ env.lightsReply
      match dr.2.2.2 with
      | .error _ =>
          { state := dr.1,
            actions := pr.1 ++ [.setUsernameAct u] ++ dr.2.1,
            retryScheduled := dr.1.pairing && decide (now < dr.1.pairingEnd),
            storedWrite := none }
      | .ok _ =>
          { state := dr.1,
            actions := pr.1 ++ [.setUsernameAct u] ++ dr.2.1
              ++ [.storageInit, .storageGet, .storageSet],
            retryScheduled := false,
            storedWrite := some (persistUsername env.storedTable s.bridgeId u) }

/-- Source lines 215-217, `cancelPairing()`: sets `this.pairing = false`
and performs no request of any kind (empty action list). -/
def cancelPairing (s : AdapterState) : AdapterState × List Action :=
  ({ s with pairing := false }, [])

/-! ## Timed pairing retry traces

The retry loop of `startPairing`/`attemptPairing`/`cancelPairing`
(src 157-185, 215-217) against an always-failing bridge, as a step
relation driven by an environment-chosen event list.  Time is in
milliseconds.  `startPairing` sets the flag and the absolute deadline
and invokes `attemptPairing` at once (src 157-162); an invocation of
`attemptPairing` issues the registration request immediately (no
username is ever acquired from a failing bridge, so `pair()` never
short-circuits); the failure response is processed at an
environment-chosen later time, at which the catch handler decides
(src 180-183) whether to schedule the deferred 500 ms retry; a
scheduled retry fires at its scheduled time and re-invokes
`attemptPairing`. -/

/-- Trace state of the retry loop: the adapter fields it touches, the
current time, the pending `setTimeout` fire time if one is scheduled,
whether a registration request is awaiting its response, and the times
at which registration requests were issued (chronological). -/
structure PairTraceState where
  pairing : Bool
  pairingEnd : Nat
  now : Nat
  pendingRetry : Option Nat
  inFlight : Bool
  requests : List Nat
deriving DecidableEq, Repr

/-- Events of the retry loop, chosen by the environment/scheduler. -/
inductive PairTraceEv where
  | startPairing (timeoutMs : Nat)
  | cancelPairing
  | failAt (t : Nat)
  | fireRetry
deriving DecidableEq, Repr

/-- One invocation of `attemptPairing` against the always-failing
bridge: `pair()` has no username to short-circuit on, so the
registration request is issued at the current time (src 196-198). -/
def attemptPairingStep (s : PairTraceState) : PairTraceState :=
  { s with requests := s.requests ++ [s.now], inFlight := true }

/-- One step of the retry loop.  `startPairing` (src 157-162) raises
the flag, sets the deadline and attempts at once; `cancelPairing`
(src 215-217) lowers the flag; `failAt t` delivers the pending failure
response at time `t`, running the catch handler (src 178-184), which
schedules the retry 500 ms later iff the flag is still up and `t` is
before the deadline; `fireRetry` fires the pending timer at its
scheduled time, re-invoking `attemptPairing` (src 182). -/
def pairStep (s : PairTraceState) : PairTraceEv → PairTraceState
  | .startPairing timeoutMs =>
      attemptPairingStep { s with pairing := true, pairingEnd := s.now + timeoutMs }
  | .cancelPairing => { s with pairing := false }
  | .failAt t =>
      if s.inFlight ∧ s.now ≤ t then
        let s' := { s with now := t, inFlight := false }
        if s'.pairing ∧ t < s'.pairingEnd then
          { s' with pendingRetry := some (t + 500) }
        else s'
      else s
  | .fireRetry =>
      match s.pendingRetry with
      | some t => attemptPairingStep { s with now := t, pendingRetry := none }
      | none => s

/-- A trace of the retry loop: the fold of `pairStep` over an event
list. -/
def runPair (s : PairTraceState) (evs : List PairTraceEv) : PairTraceState :=
  evs.foldl pairStep s

/-- The adapter's initial trace state (src 126-131): not pairing,
deadline 0, nothing scheduled or in flight, clock at 0. -/
def initPairTrace : PairTraceState :=
  { pairing := false, pairingEnd := 0, now := 0,
    pendingRetry := none, inFlight := false, requests := [] }

/-! ## Shared lemmas -/

/-- The successful pairing chain, run once: the registration request,
then the username assignment, then the discovery request, then the
storage read-modify-write, in that order; the table written is the
merge of the table read back with the new entry; the credential ends up
recorded and no retry is scheduled. -/
theorem attemptPairing_success_run (s : AdapterState) (env : PairEnv) (now : Nat)
    (u : String) (ls : List (String × LightInfo))
    (hu : s.username = none) (hr : env.bridgeReply = .success u)
    (hl : env.lightsReply = some ls) :
    (attemptPairing s env now).actions =
      [.registration, .setUsernameAct u, .lightsRequest,
       .storageInit, .storageGet, .storageSet] ∧
    (attemptPairing s env now).storedWrite =
      some (persistUsername env.storedTable s.bridgeId u) ∧
    (attemptPairing s env now).state.username = some u ∧
    (attemptPairing s env now).retryScheduled = false := by
  simp [attemptPairing, pair, discoverLights, hu, hr, hl]

/-! ## Claims -/

/-- C10: `cancelPairing` modifies only the pairing flag, setting it to
false; the credential, the pairing deadline, the light registry, the
bridge id and the bridge IP are unchanged, and no bridge or storage
request is issued (empty action list). -/
theorem cancelPairing_only_clears_flag (s : AdapterState) :
    (cancelPairing s).1.pairing = false ∧
    (cancelPairing s).1.username = s.username ∧
    (cancelPairing s).1.pairingEnd = s.pairingEnd ∧
    (cancelPairing s).1.lights = s.lights ∧
    (cancelPairing s).1.bridgeId = s.bridgeId ∧
    (cancelPairing s).1.bridgeIp = s.bridgeIp ∧
    (cancelPairing s).2 = [] :=
  ⟨rfl, rfl, rfl, rfl, rfl, rfl, rfl⟩

/-- C6: a push to the bridge never rejects — every transport outcome,
including decode and network failures, yields a resolved promise — and
a failed push leaves the already-updated cached property value in
place (the new value, never rolled back). -/
theorem push_failure_never_propagates (d : DeviceState) (b : Bool)
    (c : HexColor) (e e' : String) :
    (∀ r : TransportResult, ∃ x, sendProperties r = .ok x) ∧
    (setValue d "on" (.boolVal b) (.networkFailure e)).1.onValue = b ∧
    (setValue d "on" (.boolVal b) (.networkFailure e)).2.2 = .ok none ∧
    (setValue d "color" (.colorVal c) (.decodeFailure e')).1.colorValue = c ∧
    (setValue d "color" (.colorVal c) (.decodeFailure e')).2.2 = .ok none := by
  refine ⟨fun r => ?_, ?_, ?_, ?_, ?_⟩
  · cases r <;> exact ⟨_, rfl⟩
  all_goals
    simp [setValue, setCachedValue, notifyPropertyChanged, sendProperties,
      sendPropertiesRaw]

/-- C7: changing `on` pushes exactly `{on, hue, sat, bri}` with the
hue/sat/bri triple decoded (with floor truncation, inside
`hexToBridge`) from the light's current stored color; changing `color`
pushes exactly `{hue, sat, bri}` decoded from the new color, with no
on/off field (the `Payload.hsb` constructor has none); any other
property name causes no bridge call. -/
theorem property_change_payloads (d : DeviceState) (b : Bool) (c : HexColor)
    (r : TransportResult) (propertyName : String) (v : PropVal)
    (h1 : propertyName ≠ "on") (h2 : propertyName ≠ "color") :
    (setValue d "on" (.boolVal b) r).2.1 =
      some (d.lightId, .onHSB b (hexToBridge d.colorValue).1
        (hexToBridge d.colorValue).2.1 (hexToBridge d.colorValue).2.2) ∧
    (setValue d "color" (.colorVal c) r).2.1 =
      some (d.lightId, .hsb (hexToBridge c).1
        (hexToBridge c).2.1 (hexToBridge c).2.2) ∧
    (setValue d propertyName v r).2.1 = none := by
  refine ⟨?_, ?_, ?_⟩ <;>
    simp [setValue, setCachedValue, notifyPropertyChanged, h1, h2]

/-- Witness for C7 at a concrete device and the unrecognized property
name `brightness`. -/
theorem property_change_payloads_witness :
    ("brightness" : String) ≠ "on" ∧
    (setValue ⟨"d1", "1", "Lamp", false, ⟨0, 0, 0⟩⟩ "brightness"
      (.boolVal true) (.okBody "ok")).2.1 = none :=
  ⟨by decide,
   (property_change_payloads ⟨"d1", "1", "Lamp", false, ⟨0, 0, 0⟩⟩ true
      ⟨0, 0, 0⟩ (.okBody "ok") "brightness" (.boolVal true)
      (by decide) (by decide)).2.2⟩

/-- C4: when a credential is already known, `pair()` resolves with it
immediately and issues no request, `attemptPairing` makes no
registration request at all, light discovery is still triggered, and
the credential is unchanged. -/
theorem already_paired_short_circuit (s : AdapterState) (env : PairEnv)
    (now : Nat) (u : String) (h : s.username = some u) :
    pair s env.bridgeReply = ([], .ok u) ∧
    Action.registration ∉ (attemptPairing s env now).actions ∧
    Action.lightsRequest ∈ (attemptPairing s env now).actions ∧
    (attemptPairing s env now).state.username = some u := by
  have hp : pair s env.bridgeReply = ([], .ok u) := by simp [pair, h]
  refine ⟨hp, ?_, ?_, ?_⟩ <;>
  · simp only [attemptPairing, hp]
    cases hl : env.lightsReply <;> simp [discoverLights, h, hl]

/-- Witness for C4 at a concrete already-paired adapter. -/
theorem already_paired_short_circuit_witness :
    (AdapterState.username ⟨"b1", "ip1", some "u0", false, 0, []⟩ = some "u0") ∧
    (pair ⟨"b1", "ip1", some "u0", false, 0, []⟩
        (PairEnv.bridgeReply ⟨.networkFailure "down", none, none⟩) = ([], .ok "u0") ∧
     Action.registration ∉
       (attemptPairing ⟨"b1", "ip1", some "u0", false, 0, []⟩
         ⟨.networkFailure "down", none, none⟩ 0).actions ∧
     Action.lightsRequest ∈
       (attemptPairing ⟨"b1", "ip1", some "u0", false, 0, []⟩
         ⟨.networkFailure "down", none, none⟩ 0).actions ∧
     (attemptPairing ⟨"b1", "ip1", some "u0", false, 0, []⟩
         ⟨.networkFailure "down", none, none⟩ 0).state.username = some "u0") :=
  ⟨rfl, already_paired_short_circuit _ _ 0 "u0" rfl⟩

/-- Counterexample to C3 as stated: on a successful attempt the code
triggers light discovery (the lights request) strictly before it
persists the credential (`storage.setItem`), not after — the then-chain
at src 164-177 runs `discoverLights()` at line 167 and reaches
`storage.setItem` only at line 177. -/
theorem discovery_triggered_before_persist :
    (attemptPairing ⟨"b1", "ip1", none, true, 1000, []⟩
        ⟨.success "u1", some [], none⟩ 0).actions =
      [.registration, .setUsernameAct "u1", .lightsRequest,
       .storageInit, .storageGet, .storageSet] ∧
    (attemptPairing ⟨"b1", "ip1", none, true, 1000, []⟩
        ⟨.success "u1", some [], none⟩ 0).actions.indexOf .lightsRequest <
      (attemptPairing ⟨"b1", "ip1", none, true, 1000, []⟩
        ⟨.success "u1", some [], none⟩ 0).actions.indexOf .storageSet := by
  decide

/-- C3 (amended): when a pairing attempt succeeds, the session
transitions to Succeeded (the username is recorded), then light
discovery is triggered, and only then is the credential persisted to
the credential store (merged with the existing table). -/
theorem pairing_success_ordering (s : AdapterState) (env : PairEnv) (now : Nat)
    (u : String) (ls : List (String × LightInfo))
    (hu : s.username = none) (hr : env.bridgeReply = .success u)
    (hl : env.lightsReply = some ls) :
    (attemptPairing s env now).actions =
      [.registration, .setUsernameAct u, .lightsRequest,
       .storageInit, .storageGet, .storageSet] :=
  (attemptPairing_success_run s env now u ls hu hr hl).1

/-- Witness for C3 (amended) at a concrete unpaired adapter. -/
theorem pairing_success_ordering_witness :
    (AdapterState.username ⟨"b2", "ip2", none, true, 9000, []⟩ = none ∧
     PairEnv.bridgeReply ⟨.success "u2", some [], some (fun _ => none)⟩ =
       .success "u2" ∧
     PairEnv.lightsReply ⟨.success "u2", some [], some (fun _ => none)⟩ =
       some []) ∧
    (attemptPairing ⟨"b2", "ip2", none, true, 9000, []⟩
        ⟨.success "u2", some [], some (fun _ => none)⟩ 5).actions =
      [.registration, .setUsernameAct "u2", .lightsRequest,
       .storageInit, .storageGet, .storageSet] :=
  ⟨⟨rfl, rfl, rfl⟩,
   pairing_success_ordering _ _ 5 "u2" [] rfl rfl rfl⟩

/-- C8: persisting a newly acquired credential is a read-modify-write
that re-reads the current table (the write performed by the success
chain is the merge of the table `getItem` returned, with the storage
read preceding the storage write) and preserves every other bridge's
entry, setting only the entry for this bridge. -/
theorem credential_store_merge (T : Table) (bid b' c u : String)
    (s : AdapterState) (env : PairEnv) (now : Nat)
    (ls : List (String × LightInfo)) (hb : b' ≠ bid)
    (hu : s.username = none) (hr : env.bridgeReply = .success u)
    (hl : env.lightsReply = some ls) :
    persistUsername (some T) bid c bid = some c ∧
    persistUsername (some T) bid c b' = T b' ∧
    persistUsername none bid c bid = some c ∧
    persistUsername none bid c b' = none ∧
    (attemptPairing s env now).storedWrite =
      some (persistUsername env.storedTable s.bridgeId u) ∧
    ∃ pre post, (attemptPairing s env now).actions =
      pre ++ Action.storageGet :: Action.storageSet :: post := by
  refine ⟨by simp [persistUsername], by simp [persistUsername, hb],
    by simp [persistUsername], by simp [persistUsername, hb],
    (attemptPairing_success_run s env now u ls hu hr hl).2.1,
    [.registration, .setUsernameAct u, .lightsRequest, .storageInit], [], ?_⟩
  rw [(attemptPairing_success_run s env now u ls hu hr hl).1]
  rfl

/-- Witness for C8 at a concrete prior table holding another bridge's
credential. -/
theorem credential_store_merge_witness :
    (("other" : String) ≠ "b3" ∧
     AdapterState.username ⟨"b3", "ip3", none, true, 9000, []⟩ = none) ∧
    (persistUsername (some (fun x => if x = "other" then some "c0" else none))
        "b3" "c1" "b3" = some "c1" ∧
     persistUsername (some (fun x => if x = "other" then some "c0" else none))
        "b3" "c1" "other" =
       (fun x => if x = "other" then some "c0" else none) "other" ∧
     persistUsername none "b3" "c1" "b3" = some "c1" ∧
     persistUsername none "b3" "c1" "other" = none ∧
     (attemptPairing ⟨"b3", "ip3", none, true, 9000, []⟩
        ⟨.success "u3", some [], some (fun x => if x = "other" then some "c0" else none)⟩
        0).storedWrite =
       some (persistUsername
         (PairEnv.storedTable ⟨.success "u3", some [],
            some (fun x => if x = "other" then some "c0" else none)⟩)
         (AdapterState.bridgeId ⟨"b3", "ip3", none, true, 9000, []⟩) "u3") ∧
     ∃ pre post,
       (attemptPairing ⟨"b3", "ip3", none, true, 9000, []⟩
          ⟨.success "u3", some [], some (fun x => if x = "other" then some "c0" else none)⟩
          0).actions = pre ++ Action.storageGet :: Action.storageSet :: post) :=
  ⟨⟨by decide, rfl⟩,
   credential_store_merge (fun x => if x = "other" then some "c0" else none)
     "b3" "other" "c1" "u3" _ _ 0 [] (by decide) rfl rfl rfl⟩

/-- Unfolding of `runPair` over a cons. -/
theorem runPair_cons (s : PairTraceState) (e : PairTraceEv)
    (evs : List PairTraceEv) :
    runPair s (e :: evs) = runPair (pairStep s e) evs := rfl

/-- Number of scheduled retries pending (0 or 1). -/
def pendCount (s : PairTraceState) : Nat :=
  if s.pendingRetry.isSome then 1 else 0

/-- One step after cancellation: the flag stays down and the issued
requests plus the pending retry never grow. -/
theorem pairStep_cancelled (s : PairTraceState) (ev : PairTraceEv)
    (hc : s.pairing = false) (hs : ∀ t, ev ≠ .startPairing t) :
    (pairStep s ev).pairing = false ∧
    (pairStep s ev).requests.length + pendCount (pairStep s ev)
      ≤ s.requests.length + pendCount s := by
  cases ev with
  | startPairing t => exact absurd rfl (hs t)
  | cancelPairing => simp [pairStep, pendCount]
  | failAt t =>
      simp only [pairStep]
      split_ifs with h1 <;> simp_all [pendCount]
  | fireRetry =>
      cases hp : s.pendingRetry with
      | none => simp [pairStep, hp, hc, pendCount]
      | some t => simp [pairStep, hp, attemptPairingStep, hc, pendCount]

/-- A cancelled trace: the flag stays down and the issued requests plus
the pending retry never grow, over any event list with no new
`startPairing`. -/
theorem runPair_cancelled (evs : List PairTraceEv) :
    ∀ s : PairTraceState, s.pairing = false →
    (∀ t, PairTraceEv.startPairing t ∉ evs) →
    (runPair s evs).pairing = false ∧
    (runPair s evs).requests.length + pendCount (runPair s evs)
      ≤ s.requests.length + pendCount s := by
  induction evs with
  | nil => exact fun s hc _ => ⟨hc, le_refl _⟩
  | cons e rest ih =>
      intro s hc hs
      have he : ∀ t, e ≠ .startPairing t := by
        intro t ht
        subst ht
        exact hs t (List.mem_cons_self _ _)
      have hstep := pairStep_cancelled s e hc he
      have hrest : ∀ t, PairTraceEv.startPairing t ∉ rest :=
        fun t ht => hs t (List.mem_cons_of_mem _ ht)
      have h := ih (pairStep s e) hstep.1 hrest
      rw [runPair_cons]
      exact ⟨h.1, le_trans h.2 hstep.2⟩

/-- Counterexample to C1 as stated: starting pairing, failing once (so
that a retry is waiting in its 500 ms delay) and then cancelling leaves
the flag down with the retry still scheduled for time 600; when that
deferred `attemptPairing` fires it nevertheless issues a registration
request (at time 600), because `attemptPairing` (src 164-185) never
re-checks `this.pairing` before calling `pair()`. -/
theorem cancelled_retry_still_requests :
    (runPair initPairTrace
      [.startPairing 10000, .failAt 100, .cancelPairing]).pairing = false ∧
    (runPair initPairTrace
      [.startPairing 10000, .failAt 100, .cancelPairing]).pendingRetry =
      some 600 ∧
    (runPair initPairTrace
      [.startPairing 10000, .failAt 100, .cancelPairing]).requests = [0] ∧
    (runPair initPairTrace
      [.startPairing 10000, .failAt 100, .cancelPairing, .fireRetry]).requests =
      [0, 600] := by decide

/-- C1 (amended): cancelling while a retry waits in its 500 ms delay
does not stop that already-scheduled attempt — when it fires it still
issues one registration request — but cancellation is observed at the
next retry decision: from any cancelled state, at most the one pending
attempt ever runs, so at most one further registration request is
issued and the pairing flag stays down, whatever failure responses and
timer firings follow. -/
theorem cancellation_bounds_requests (s : PairTraceState)
    (evs : List PairTraceEv) (hc : s.pairing = false)
    (hs : ∀ t, PairTraceEv.startPairing t ∉ evs) :
    (runPair s evs).pairing = false ∧
    (runPair s evs).requests.length + pendCount (runPair s evs)
      ≤ s.requests.length + pendCount s ∧
    (runPair s evs).requests.length ≤ s.requests.length + 1 := by
  have h := runPair_cancelled evs s hc hs
  have hpend : pendCount s ≤ 1 := by
    unfold pendCount; split_ifs <;> omega
  have h2 := h.2
  exact ⟨h.1, h2, by omega⟩

/-- Witness for C1 (amended): the cancelled state reached in the
counterexample trace, followed by the pending retry firing, its
failure response and a further timer event. -/
theorem cancellation_bounds_requests_witness :
    ((runPair initPairTrace
        [.startPairing 10000, .failAt 100, .cancelPairing]).pairing = false ∧
     (∀ t, PairTraceEv.startPairing t ∉
        ([.fireRetry, .failAt 700, .fireRetry] : List PairTraceEv))) ∧
    (runPair (runPair initPairTrace
        [.startPairing 10000, .failAt 100, .cancelPairing])
        [.fireRetry, .failAt 700, .fireRetry]).requests.length ≤
      (runPair initPairTrace
        [.startPairing 10000, .failAt 100, .cancelPairing]).requests.length
        + 1 :=
  have hni : ∀ t, PairTraceEv.startPairing t ∉
      ([.fireRetry, .failAt 700, .fireRetry] : List PairTraceEv) := by
    intro t ht
    simp at ht
  ⟨⟨by decide, hni⟩,
   (cancellation_bounds_requests
     (runPair initPairTrace [.startPairing 10000, .failAt 100, .cancelPairing])
     [.fireRetry, .failAt 700, .fireRetry] (by decide) hni).2.2⟩

/-- The invariant carried along a pairing session with deadline `E`:
every issued request and every scheduled retry time lies below
`E + 500`. -/
def deadlineInv (E : Nat) (s : PairTraceState) : Prop :=
  s.pairingEnd = E ∧
  (∀ r ∈ s.requests, r < E + 500) ∧
  (∀ u, s.pendingRetry = some u → u < E + 500)

/-- One step preserves the deadline invariant (no new `startPairing`). -/
theorem pairStep_deadlineInv (E : Nat) (s : PairTraceState) (ev : PairTraceEv)
    (h : deadlineInv E s) (hs : ∀ t, ev ≠ .startPairing t) :
    deadlineInv E (pairStep s ev) := by
  obtain ⟨hE, hreq, hpend⟩ := h
  cases ev with
  | startPairing t => exact absurd rfl (hs t)
  | cancelPairing => exact ⟨hE, hreq, hpend⟩
  | failAt t =>
      simp only [pairStep]
      split_ifs with h1 h2
      · refine ⟨hE, hreq, ?_⟩
        intro u hu
        simp only [Option.some.injEq] at hu
        omega
      · exact ⟨hE, hreq, hpend⟩
      · exact ⟨hE, hreq, hpend⟩
  | fireRetry =>
      cases hp : s.pendingRetry with
      | none => simpa [pairStep, hp] using ⟨hE, hreq, hpend⟩
      | some u =>
          have hu := hpend u hp
          simp only [pairStep, hp, attemptPairingStep]
          refine ⟨hE, ?_, by simp⟩
          intro r hr
          rcases List.mem_append.mp hr with hmem | hmem
          · exact hreq r hmem
          · rw [List.mem_singleton.mp hmem]
            exact hu

/-- The deadline invariant holds along any trace with no new
`startPairing`. -/
theorem runPair_deadlineInv (E : Nat) (evs : List PairTraceEv) :
    ∀ s : PairTraceState, deadlineInv E s →
    (∀ t, PairTraceEv.startPairing t ∉ evs) →
    deadlineInv E (runPair s evs) := by
  induction evs with
  | nil => exact fun s h _ => h
  | cons e rest ih =>
      intro s h hs
      have he : ∀ t, e ≠ .startPairing t := by
        intro t ht
        subst ht
        exact hs t (List.mem_cons_self _ _)
      have hrest : ∀ t, PairTraceEv.startPairing t ∉ rest :=
        fun t ht => hs t (List.mem_cons_of_mem _ ht)
      rw [runPair_cons]
      exact ih (pairStep s e) (pairStep_deadlineInv E s e h he) hrest

/-- Counterexample to C2 as stated: with `start` at time 0 and deadline
1000, a failure response processed at time 999 (before the deadline)
schedules the retry for time 1499; when it fires, a registration
request is issued at time 1499, at/after the deadline — so "after the
deadline zero further registration requests are issued" fails, even
though the scheduling decision itself happened before the deadline. -/
theorem request_issued_after_deadline :
    (runPair initPairTrace
      [.startPairing 1000, .failAt 999, .fireRetry]).pairingEnd = 1000 ∧
    (runPair initPairTrace
      [.startPairing 1000, .failAt 999, .fireRetry]).requests = [0, 1499] ∧
    1000 ≤ 1499 := by decide

/-- C2 (amended): at every retry decision point a new attempt is
scheduled only if the decision time is before the deadline — a decision
at or after the deadline leaves the schedule unchanged — and every
registration request of the session is issued strictly before
deadline + 500 ms: at most one already-scheduled attempt can fire past
the deadline, within 500 ms of it, and nothing afterwards. -/
theorem retries_respect_deadline (timeoutMs : Nat) (evs : List PairTraceEv)
    (hs : ∀ t, PairTraceEv.startPairing t ∉ evs) :
    (∀ (s : PairTraceState) (t : Nat), s.pairingEnd ≤ t →
        (pairStep s (.failAt t)).pendingRetry = s.pendingRetry) ∧
    ∀ r ∈ (runPair (pairStep initPairTrace (.startPairing timeoutMs))
        evs).requests, r < timeoutMs + 500 := by
  constructor
  · intro s t ht
    simp only [pairStep]
    split_ifs with h1 h2
    · exact absurd h2.2 (by simp; omega)
    · rfl
    · rfl
  · have h0 : deadlineInv timeoutMs
        (pairStep initPairTrace (.startPairing timeoutMs)) := by
      refine ⟨by simp [pairStep, initPairTrace, attemptPairingStep], ?_, ?_⟩
      · intro r hr
        simp [pairStep, initPairTrace, attemptPairingStep] at hr
        omega
      · intro u hu
        simp [pairStep, initPairTrace, attemptPairingStep] at hu
    exact (runPair_deadlineInv timeoutMs evs _ h0 hs).2.1

/-- Witness for C2 (amended) on a concrete 1-second session with two
failed attempts. -/
theorem retries_respect_deadline_witness :
    (∀ t, PairTraceEv.startPairing t ∉
        ([.failAt 200, .fireRetry, .failAt 800, .fireRetry] : List PairTraceEv)) ∧
    ∀ r ∈ (runPair (pairStep initPairTrace (.startPairing 1000))
        [.failAt 200, .fireRetry, .failAt 800, .fireRetry]).requests,
      r < 1000 + 500 :=
  have hni : ∀ t, PairTraceEv.startPairing t ∉
      ([.failAt 200, .fireRetry, .failAt 800, .fireRetry] : List PairTraceEv) := by
    intro t ht
    simp at ht
  ⟨hni, (retries_respect_deadline 1000 _ hni).2⟩

/-- The discovery fold only ever appends to the registry and to the
created-ids list (existing entries are never modified in place). -/
theorem discFold_append (bid : String) (ls : List (String × LightInfo)) :
    ∀ acc : List (String × DeviceState) × List String,
    ∃ ext extc, ls.foldl (discAdd bid) acc = (acc.1 ++ ext, acc.2 ++ extc) := by
  induction ls with
  | nil => exact fun acc => ⟨[], [], by simp⟩
  | cons p rest ih =>
      intro acc
      rw [List.foldl_cons]
      by_cases hmem : (acc.1.lookup p.1).isSome = true
      · rw [show discAdd bid acc p = acc from by simp [discAdd, hmem]]
        exact ih acc
      · obtain ⟨ext, extc, h⟩ := ih (discAdd bid acc p)
        refine ⟨(p.1, mkPhilipsHueDevice
            ("philips-hue-" ++ bid ++ "-" ++ p.1) p.1 p.2) :: ext,
          p.1 :: extc, ?_⟩
        rw [h]
        simp [discAdd, hmem]

/-- A key found on the left of an append is still found afterwards. -/
theorem lookup_append_isSome (k : String) (l₁ l₂ : List (String × DeviceState))
    (h : (l₁.lookup k).isSome = true) :
    ((l₁ ++ l₂).lookup k).isSome = true := by
  induction l₁ with
  | nil => simp [List.lookup] at h
  | cons a rest ih =>
      obtain ⟨a1, a2⟩ := a
      rw [List.cons_append]
      cases hk : (k == a1) with
      | true => simp [List.lookup_cons, hk]
      | false =>
          rw [List.lookup_cons] at h ⊢
          rw [hk] at h ⊢
          exact ih h

/-- A key just appended at the end is found. -/
theorem lookup_append_singleton (k : String) (d : DeviceState)
    (l : List (String × DeviceState)) :
    ((l ++ [(k, d)]).lookup k).isSome = true := by
  induction l with
  | nil => simp [List.lookup_cons]
  | cons a rest ih =>
      obtain ⟨a1, a2⟩ := a
      rw [List.cons_append]
      cases hk : (k == a1) with
      | true => simp [List.lookup_cons, hk]
      | false =>
          rw [List.lookup_cons, hk]
          exact ih

/-- After one discovery pass, every bridge light id of the reply is
present in the registry. -/
theorem discFold_mem_isSome (bid : String) (ls : List (String × LightInfo)) :
    ∀ acc, ∀ p ∈ ls,
      (((ls.foldl (discAdd bid) acc).1.lookup p.1).isSome = true) := by
  induction ls with
  | nil => intro acc p hp; simp at hp
  | cons q rest ih =>
      intro acc p hp
      rw [List.foldl_cons]
      rcases List.mem_cons.mp hp with hpq | hpr
      · subst hpq
        have hq : ((discAdd bid acc p).1.lookup p.1).isSome = true := by
          by_cases hmem : (acc.1.lookup p.1).isSome = true
          · simp [discAdd, hmem]
          · simp only [discAdd, hmem, if_neg, Bool.false_eq_true,
              not_false_eq_true, if_false]
            exact lookup_append_singleton _ _ _
        obtain ⟨ext, extc, hfold⟩ := discFold_append bid rest (discAdd bid acc p)
        rw [hfold]
        exact lookup_append_isSome _ _ _ hq
      · exact ih (discAdd bid acc q) p hpr

/-- A discovery pass over a reply whose every light id is already in
the registry changes nothing and creates nothing. -/
theorem discFold_all_present (bid : String) (ls : List (String × LightInfo)) :
    ∀ acc, (∀ p ∈ ls, (acc.1.lookup p.1).isSome = true) →
      ls.foldl (discAdd bid) acc = acc := by
  induction ls with
  | nil => intro acc _; rfl
  | cons q rest ih =>
      intro acc h
      rw [List.foldl_cons,
        show discAdd bid acc q = acc from by
          simp [discAdd, h q (List.mem_cons_self _ _)]]
      exact ih acc (fun p hp => h p (List.mem_cons_of_mem _ hp))

/-- C5: `discoverLights` invoked twice with an unchanged bridge light
list is a no-op the second time — the adapter state (in particular the
registry, with every existing entry's id, name and property values) is
exactly the state after the first call, and the second call constructs
no new light (empty created-ids list). -/
theorem discover_twice_is_noop (s : AdapterState) (u : String)
    (ls : List (String × LightInfo)) (hu : s.username = some u) :
    (discoverLights (discoverLights s (some ls)).1 (some ls)).1 =
      (discoverLights s (some ls)).1 ∧
    (discoverLights (discoverLights s (some ls)).1 (some ls)).2.2.1 = [] := by
  have h1 : (discoverLights s (some ls)).1 =
      { s with lights := (ls.foldl (discAdd s.bridgeId) (s.lights, [])).1 } := by
    simp [discoverLights, hu]
  have hpresent : ∀ p ∈ ls,
      ((({ s with lights := (ls.foldl (discAdd s.bridgeId) (s.lights, [])).1
         } : AdapterState).lights.lookup p.1).isSome = true) :=
    fun p hp => discFold_mem_isSome s.bridgeId ls (s.lights, []) p hp
  have h2 : ls.foldl (discAdd s.bridgeId)
      ((ls.foldl (discAdd s.bridgeId) (s.lights, [])).1, []) =
      ((ls.foldl (discAdd s.bridgeId) (s.lights, [])).1, []) :=
    discFold_all_present s.bridgeId ls _ (fun p hp => hpresent p hp)
  rw [h1]
  constructor <;> simp [discoverLights, hu, h2]

/-- Witness for C5 at a concrete adapter and one-light reply. -/
theorem discover_twice_is_noop_witness :
    (AdapterState.username ⟨"b4", "ip4", some "u4", false, 0, []⟩ = some "u4") ∧
    ((discoverLights
        (discoverLights ⟨"b4", "ip4", some "u4", false, 0, []⟩
          (some [("1", ⟨"Lamp", true, 1000, 200, 100⟩)])).1
        (some [("1", ⟨"Lamp", true, 1000, 200, 100⟩)])).1 =
      (discoverLights ⟨"b4", "ip4", some "u4", false, 0, []⟩
        (some [("1", ⟨"Lamp", true, 1000, 200, 100⟩)])).1 ∧
     (discoverLights
        (discoverLights ⟨"b4", "ip4", some "u4", false, 0, []⟩
          (some [("1", ⟨"Lamp", true, 1000, 200, 100⟩)])).1
        (some [("1", ⟨"Lamp", true, 1000, 200, 100⟩)])).2.2.1 = []) :=
  ⟨rfl, discover_twice_is_noop _ "u4" _ rfl⟩

/-- Rounding a natural number is the identity. -/
theorem roundQ_natCast (n : ℕ) : roundQ (n : ℚ) = n := by
  unfold roundQ
  rw [show ((n:ℚ) + 1/2) = ((n:ℤ) : ℚ) + (1/2:ℚ) by push_cast; ring]
  rw [Int.floor_int_add]
  have h : ⌊(1/2 : ℚ)⌋ = 0 := by norm_num
  rw [h, add_zero]

/-- A channel below a natural bound rounds to at most that bound. -/
theorem roundQ_toNat_le_of_le {x : ℚ} {n : Nat} (h : x ≤ (n:ℚ)) :
    (roundQ x).toNat ≤ n := by
  have h1 : roundQ x ≤ roundQ (n:ℚ) :=
    Int.floor_le_floor (by linarith)
  rw [roundQ_natCast] at h1
  have h2 := Int.toNat_le_toNat h1
  simpa using h2

/-- A channel equal to a natural number rounds to exactly it. -/
theorem roundQ_toNat_eq {x : ℚ} (n : Nat) (h : x = (n:ℚ)) :
    (roundQ x).toNat = n := by
  rw [h, roundQ_natCast, Int.toNat_natCast]

/-- In every hue sector the HSV→RGB channels are bounded by the value
channel `255 * (v/100)`, and one of them equals it. -/
theorem hsv2rgb_le (h s v : ℚ) (hs0 : 0 ≤ s/100) (hv0 : 0 ≤ v/100) :
    (hsv2rgb h s v).1 ≤ 255 * (v/100) ∧
    (hsv2rgb h s v).2.1 ≤ 255 * (v/100) ∧
    (hsv2rgb h s v).2.2 ≤ 255 * (v/100) ∧
    ((hsv2rgb h s v).1 = 255 * (v/100) ∨
     (hsv2rgb h s v).2.1 = 255 * (v/100) ∨
     (hsv2rgb h s v).2.2 = 255 * (v/100)) := by
  have hf0 : (0:ℚ) ≤ h/60 - ⌊h/60⌋ := by
    have := Int.floor_le (h/60); linarith
  have hf1 : h/60 - ⌊h/60⌋ ≤ 1 := by
    have := Int.lt_floor_add_one (h/60); linarith
  have hp : 255 * ((v/100) * (1 - s/100)) ≤ 255 * (v/100) := by
    nlinarith [mul_nonneg hv0 hs0]
  have hq : 255 * ((v/100) * (1 - s/100 * (h/60 - ⌊h/60⌋))) ≤ 255 * (v/100) := by
    nlinarith [mul_nonneg hv0 (mul_nonneg hs0 hf0)]
  have ht : 255 * ((v/100) * (1 - s/100 * (1 - (h/60 - ⌊h/60⌋)))) ≤ 255 * (v/100) := by
    nlinarith [mul_nonneg hv0
      (mul_nonneg hs0 (by linarith : (0:ℚ) ≤ 1 - (h/60 - ⌊h/60⌋)))]
  unfold hsv2rgb
  dsimp only
  split_ifs <;>
    exact ⟨by first | exact le_refl _ | exact hp | exact hq | exact ht,
           by first | exact le_refl _ | exact hp | exact hq | exact ht,
           by first | exact le_refl _ | exact hp | exact hq | exact ht,
           by first | exact Or.inl rfl | exact Or.inr (Or.inl rfl)
                    | exact Or.inr (Or.inr rfl)⟩

/-- The largest 8-bit channel of the hex color encoding a bridge triple
is exactly the bridge brightness. -/
theorem bridgeToHex_max (hue sat bri : Nat) :
    max (bridgeToHex hue sat bri).r
      (max (bridgeToHex hue sat bri).g (bridgeToHex hue sat bri).b) = bri := by
  have hs0 : (0:ℚ) ≤ ((sat:ℚ)/255*100)/100 := by positivity
  have hv0 : (0:ℚ) ≤ ((bri:ℚ)/255*100)/100 := by positivity
  have hch := hsv2rgb_le ((hue:ℚ)/65535*360) ((sat:ℚ)/255*100)
    ((bri:ℚ)/255*100) hs0 hv0
  have hvv : (255:ℚ) * (((bri:ℚ)/255*100)/100) = (bri:ℚ) := by
    field_simp
    ring
  rw [hvv] at hch
  have hr : (bridgeToHex hue sat bri).r =
      (roundQ (hsv2rgb ((hue:ℚ)/65535*360) ((sat:ℚ)/255*100)
        ((bri:ℚ)/255*100)).1).toNat := rfl
  have hg : (bridgeToHex hue sat bri).g =
      (roundQ (hsv2rgb ((hue:ℚ)/65535*360) ((sat:ℚ)/255*100)
        ((bri:ℚ)/255*100)).2.1).toNat := rfl
  have hb : (bridgeToHex hue sat bri).b =
      (roundQ (hsv2rgb ((hue:ℚ)/65535*360) ((sat:ℚ)/255*100)
        ((bri:ℚ)/255*100)).2.2).toNat := rfl
  have hrle : (bridgeToHex hue sat bri).r ≤ bri := by
    rw [hr]; exact roundQ_toNat_le_of_le hch.1
  have hgle : (bridgeToHex hue sat bri).g ≤ bri := by
    rw [hg]; exact roundQ_toNat_le_of_le hch.2.1
  have hble : (bridgeToHex hue sat bri).b ≤ bri := by
    rw [hb]; exact roundQ_toNat_le_of_le hch.2.2.1
  rcases hch.2.2.2 with h | h | h
  · have : (bridgeToHex hue sat bri).r = bri := by
      rw [hr]; exact roundQ_toNat_eq bri h
    omega
  · have : (bridgeToHex hue sat bri).g = bri := by
      rw [hg]; exact roundQ_toNat_eq bri h
    omega
  · have : (bridgeToHex hue sat bri).b = bri := by
      rw [hb]; exact roundQ_toNat_eq bri h
    omega

/-- Counterexample to C9 as stated: the input (hue 32768, sat 0,
bri 255) — about 180 degrees, fully desaturated — encodes to the gray
`#FFFFFF`, from which decoding recovers hue 0: the recovered hue is off
by 32768, half the hue range and roughly 180 hue quanta (one quantum of
the hex encoding is 65535/360 ≈ 182), far beyond any
integer-truncation tolerance.  Hue (and, when brightness is 0, also
saturation) is simply not representable in the hex color once the
color is achromatic, so no truncation-scale tolerance holds on the
whole domain. -/
theorem hue_lost_for_desaturated_input :
    bridgeToHex 32768 0 255 = ⟨255, 255, 255⟩ ∧
    hexToBridge (bridgeToHex 32768 0 255) = (0, 0, 255) ∧
    32768 - (hexToBridge (bridgeToHex 32768 0 255)).1 = 32768 := by
  have h1 : bridgeToHex 32768 0 255 = ⟨255, 255, 255⟩ := by
    norm_num [bridgeToHex, hsv2rgb, rgbQuantize, roundQ]
    decide
  have h2 : hexToBridge (⟨255, 255, 255⟩ : HexColor) = (0, 0, 255) := by
    norm_num [hexToBridge, rgb2hsv]
    decide
  exact ⟨h1, by rw [h1]; exact h2, by rw [h1, h2]; decide⟩

/-- C9 (amended): the bridge-to-hex-to-bridge round-trip is not
bit-exact and admits no uniform truncation-scale tolerance over the
full domain, because the hex color is achromatic whenever sat = 0 (or
bri = 0) and the hue (resp. hue and saturation) information is then
lost entirely (see the counterexample); the brightness component,
however, round-trips exactly for every input triple. -/
theorem bri_component_roundtrip_exact (hue sat bri : Nat) :
    (hexToBridge (bridgeToHex hue sat bri)).2.2 = bri := by
  have hmax := bridgeToHex_max hue sat bri
  have hform : (hexToBridge (bridgeToHex hue sat bri)).2.2 =
      (Int.toNat ⌊((max (bridgeToHex hue sat bri).r
        (max (bridgeToHex hue sat bri).g (bridgeToHex hue sat bri).b) : Nat)
          : ℚ) / 255 * 100 * 255 / 100⌋) := rfl
  rw [hform, hmax]
  have harith : ((bri:ℚ)) / 255 * 100 * 255 / 100 = (bri:ℚ) := by
    field_simp
  rw [harith, Int.floor_natCast, Int.toNat_natCast]

end PhilipsHue
